import Mathlib

/-!
Shallow embedding of `src/cityops/backend/app/main.py` (a small FastAPI
backend for a traffic-event demo) together with theorems checking the
natural-language specification against it.

Modelling conventions:
* Python floats are modelled by exact rationals (`ℚ`); all float values
  appearing in the program (0.2, 0.05, 0.7, 0.8, 1.0, 0.4, 0.6) and the
  products the code forms with them are small decimal fractions whose
  IEEE-754 rounding never crosses the integer boundaries that the final
  `int(...)` truncation inspects, so the rational model agrees with the
  float execution on every value the theorems mention.
* Python `int(x)` on a float (truncation toward zero) is `pyInt`.
* Python `//` (floor division) on ints is `Int.fdiv`.
* The process-wide mutable dict `STATE` becomes an explicit `StateRecord`
  value threaded through the operations; `initialState` is its initial
  literal (main.py lines 36-41).
* The GeoJSON payload is modelled by `MapPayload`: an ordered feature list
  plus an opaque `meta` part for everything the segment endpoint never
  touches.  Each `Feature` keeps its `congestion` property, its `id`
  property (`fid`) and an opaque `rest` for all other content.
-/

/-- Python `min` on two ints. -/
def imin (a b : ℤ) : ℤ := if a ≤ b then a else b

/-- Python `max` on two ints. -/
def imax (a b : ℤ) : ℤ := if b ≤ a then a else b

/-- Python `min` on two floats (modelled as rationals). -/
def qmin (a b : ℚ) : ℚ := if a ≤ b then a else b

/-- Python `max` on two floats (modelled as rationals). -/
def qmax (a b : ℚ) : ℚ := if b ≤ a then a else b

/-- Python `int(q)` for a float value `q`: truncation toward zero. -/
def pyInt (q : ℚ) : ℤ := if 0 ≤ q then ⌊q⌋ else ⌈q⌉

/-- The event-type enumeration of `EventPayload.type`
(`Literal["accident", "closure", "construction", "ems", "clear"]`,
main.py line 31). -/
inductive EventType where
  | accident
  | closure
  | construction
  | ems
  | clear
deriving DecidableEq

/-- The string carried by each enum member (Python stores the literal
string itself in `STATE["event_type"]`). -/
def EventType.str : EventType → String
  | .accident => "accident"
  | .closure => "closure"
  | .construction => "construction"
  | .ems => "ems"
  | .clear => "clear"

/-- The `EventPayload` request model (main.py lines 28-33): a validated request body.
`severity` carries the raw optional integer; the pydantic bounds
`ge=1, le=5` are the predicate `ValidPayload` below. -/
structure EventPayload where
  type : EventType
  node_id : Option String
  severity : Option ℤ
deriving DecidableEq

/-- The pydantic field constraint `severity: Optional[int] = Field(default=None, ge=1, le=5)`:
a present severity must lie in 1..5. -/
def ValidPayload (p : EventPayload) : Prop :=
  ∀ v, p.severity = some v → 1 ≤ v ∧ v ≤ 5

/-- The process-wide mutable record `STATE` (main.py lines 36-41), with the
types its values actually take at runtime. -/
structure StateRecord where
  event_active : Bool
  severity : ℤ
  event_type : String
  focus_node_id : Option String
deriving DecidableEq

/-- The initial value of `STATE` (main.py lines 36-41). -/
def initialState : StateRecord :=
  { event_active := false
    severity := 2
    event_type := "clear"
    focus_node_id := none }

/-- Python `clamp_severity` (main.py lines 44-51) restricted to the values the
typed state can hold: `None` becomes 1, an integer is clamped into [1, 5].
(The `int(value)`/exception branch only fires for non-integer dynamic
values, which the typed model excludes.) -/
def clamp_severity (value : Option ℤ) : ℤ :=
  match value with
  | none => 1
  | some numeric => imax 1 (imin 5 numeric)

/-- The constant `BASE_ETA = 340` (main.py line 18). -/
def BASE_ETA : ℤ := 340

/-- The `TYPE_FACTOR` dict (main.py lines 19-25) as a lookup that returns none on unknown keys. -/
def TYPE_FACTOR (s : String) : Option ℚ :=
  if s = "accident" then some 0.8
  else if s = "closure" then some 1.0
  else if s = "construction" then some 0.6
  else if s = "ems" then some 0.4
  else if s = "clear" then some 0.0
  else none

/-- The KPI object returned by `_build_kpi`. -/
structure Kpi where
  eta_ems : ℤ
  travel_time_delta : ℤ
  queue_len_estimate : ℤ
deriving DecidableEq

/-- Python `_build_kpi` (main.py lines 54-70) as a pure function of the state:
the spec's `computeKpi`.  `STATE.get("event_type", "accident") or "accident"`
turns a falsy (empty) string into `"accident"`. -/
def build_kpi (s : StateRecord) : Kpi :=
  let severity := clamp_severity (some s.severity)
  let event_active := s.event_active
  let event_type := if s.event_type = "" then "accident" else s.event_type
  let delta : ℤ :=
    if event_active = false then 0
    else
      let factor := (TYPE_FACTOR event_type).getD 0.8
      let baseline_multiplier : ℚ := 0.2 + 0.05 * ((severity : ℚ) - 1)
      pyInt ((BASE_ETA : ℚ) * baseline_multiplier * factor)
  { eta_ems := BASE_ETA + delta
    travel_time_delta := delta
    queue_len_estimate := if delta = 0 then 120 else 300 }

/-- Python `toggle_event` (main.py lines 94-110), the state transition of
POST /api/event, as a pure function old-state × payload → new-state.
Line 96: a missing request severity falls back to the stored severity. -/
def toggle_event (s : StateRecord) (p : EventPayload) : StateRecord :=
  let requested_severity : Option ℤ :=
    match p.severity with
    | some v => some v
    | none => some s.severity
  let severity := clamp_severity requested_severity
  let event_active : Bool := decide (p.type ≠ EventType.clear)
  { event_active := event_active
    severity := if event_active then severity else 1
    event_type := if p.type ≠ EventType.clear then p.type.str else "clear"
    focus_node_id := p.node_id }

/-- One GeoJSON feature: its `congestion` property (absent until written),
its `id` property (`fid`, read only by the spec's focus-window variant) and
an opaque `rest` for the geometry and all other properties, which the code
never touches. -/
structure Feature where
  congestion : Option ℚ
  fid : Option String
  rest : String
deriving DecidableEq

/-- The corridor payload: the `features` list plus an opaque `meta` part
for every other key of the GeoJSON object. -/
structure MapPayload where
  features : List Feature
  meta : String
deriving DecidableEq

/-- Writing `properties["congestion"] = v` on a feature. -/
def setCongestion (f : Feature) (v : ℚ) : Feature :=
  { f with congestion := some v }

/-- The `for idx, feature in enumerate(features)` loop of `get_segments`
(main.py lines 138-143), carrying the running index `idx`: features with
index below `hotspot_cap` receive `congestion_value`, the rest 0.2. -/
def annotateLoop (hotspot_cap : ℤ) (congestion_value : ℚ) :
    ℕ → List Feature → List Feature
  | _, [] => []
  | idx, f :: rest =>
      (if (idx : ℤ) < hotspot_cap then setCongestion f congestion_value
       else setCongestion f 0.2) :: annotateLoop hotspot_cap congestion_value (idx + 1) rest

/-- The value `hotspot_cap` as computed in main.py lines 132-134 from the state and
the feature count: `min(max(1, min(3, 1 + severity // 2)), len(features))`. -/
def hotspot_cap (s : StateRecord) (featureCount : ℕ) : ℤ :=
  let severity := clamp_severity (some s.severity)
  let hotspot_target := imax 1 (imin 3 (1 + Int.fdiv severity 2))
  imin hotspot_target (featureCount : ℤ)

/-- The value `congestion_value` as computed in main.py lines 135-136:
`min(1.0, base_hot + 0.05 * max(0, severity - 1))` with `base_hot = 0.7`
for construction and `0.8` otherwise. -/
def congestion_value (s : StateRecord) : ℚ :=
  let severity := clamp_severity (some s.severity)
  let base_hot : ℚ := if s.event_type = "construction" then 0.7 else 0.8
  qmin 1.0 (base_hot + 0.05 * qmax 0 ((severity : ℚ) - 1))

/-- Python `get_segments` (main.py lines 118-145), the spec's `annotateSegments`,
as a pure function of the state and the freshly loaded payload: empty
feature list → payload verbatim; inactive event → every feature gets
congestion 0.2; active event → the enumerate loop with `hotspot_cap`
and `congestion_value`. -/
def get_segments (s : StateRecord) (payload : MapPayload) : MapPayload :=
  let features := payload.features
  if features.isEmpty then payload
  else if s.event_active = false then
    { payload with features := features.map (fun f => setCongestion f 0.2) }
  else
    { payload with
        features :=
          annotateLoop (hotspot_cap s features.length) (congestion_value s) 0 features }

/-!
Spec-side definitions.  `specFocusIndex`, `specWindowStart` and
`specAnnotateSegments` follow the specification's words (§4.3: the
focus-centered hotspot-window variant), not the source; they exist only to
be compared against `get_segments`, which is the translation of the code.
-/

/-- Following the spec's words (§4.3): `focusIndex` = first feature index
whose `id` property equals `state.focusNodeId`, defaulting to 0 if absent
or not found. -/
def specFocusIndex (s : StateRecord) (features : List Feature) : ℕ :=
  match s.focus_node_id with
  | none => 0
  | some nid =>
      let i := features.findIdx fun f => decide (f.fid = some nid)
      if i < features.length then i else 0

/-- Following the spec's words (§4.3): the start of a window of `cap`
features centered around `focusIndex`, clamped ("wraparound-safe") into
the valid index range of an `n`-element list (ℕ subtraction saturates
at the left edge). -/
def specWindowStart (focusIndex cap n : ℕ) : ℕ :=
  min (focusIndex - (cap - 1) / 2) (n - cap)

/-- Following the spec's words (§4.3, focus-centered variant): hotspots are
the window of `hotspotCap` features centered around `focusIndex`; all
non-hotspot features get congestion 0.2; empty feature list → payload
verbatim.  Cap and congestion value are as in the code. -/
def specAnnotateSegments (s : StateRecord) (payload : MapPayload) : MapPayload :=
  if payload.features.isEmpty then payload
  else if s.event_active = false then
    { payload with features := payload.features.map fun f => setCongestion f 0.2 }
  else
    let n := payload.features.length
    let cap := (hotspot_cap s n).toNat
    let start := specWindowStart (specFocusIndex s payload.features) cap n
    { payload with
        features := payload.features.mapIdx fun i f =>
          if start ≤ i ∧ i < start + cap then setCongestion f (congestion_value s)
          else setCongestion f 0.2 }

/-- A raw (not yet validated) POST /api/event body. -/
structure RawEventBody where
  type : String
  nodeId : Option String
  severity : Option ℤ
deriving DecidableEq

/-- The accepted event-type strings, read off the `Literal[...]` annotation
of `EventPayload.type` (main.py line 31). -/
def parseEventType (s : String) : Option EventType :=
  if s = "accident" then some EventType.accident
  else if s = "closure" then some EventType.closure
  else if s = "construction" then some EventType.construction
  else if s = "ems" then some EventType.ems
  else if s = "clear" then some EventType.clear
  else none

/-- Modelled from the spec: the pydantic/FastAPI request-validation layer
for POST /api/event is framework code, not part of src/; per spec §6 and §7
a body whose `type` is outside the enum or whose `severity` lies outside
1..5 fails validation.  The accepted shapes are read off the `EventPayload`
field declarations (main.py lines 28-33). -/
def parseEventPayload (raw : RawEventBody) : Option EventPayload :=
  match parseEventType raw.type with
  | none => none
  | some t =>
      match raw.severity with
      | none => some { type := t, node_id := raw.nodeId, severity := none }
      | some v =>
          if 1 ≤ v ∧ v ≤ 5 then some { type := t, node_id := raw.nodeId, severity := some v }
          else none

/-- Modelled from the spec: FastAPI dispatch for POST /api/event — a body
that fails validation is answered with status 422 and the handler
`toggle_event` is never entered (spec §6: "422 on schema validation
failure"; §7: "never crash the process"), so the state is untouched; a
valid body runs `toggle_event` and is answered with status 200. -/
def post_event (s : StateRecord) (raw : RawEventBody) : ℕ × StateRecord :=
  match parseEventPayload raw with
  | none => (422, s)
  | some p => (200, toggle_event s p)

/-- The spec's state invariant (§3): `eventActive == (eventType != "clear")`. -/
def StateInvariant (s : StateRecord) : Prop :=
  s.event_active = true ↔ s.event_type ≠ "clear"

/-- States reachable from the initial `STATE` by sequences of valid
POST /api/event updates. -/
inductive Reachable : StateRecord → Prop where
  | init : Reachable initialState
  | step (s : StateRecord) (p : EventPayload) :
      Reachable s → ValidPayload p → Reachable (toggle_event s p)

/-- A feature with a given `id` property, no congestion yet, and fixed
other content; used for concrete inputs. -/
def letterFeature (nid : String) : Feature :=
  { congestion := none, fid := some nid, rest := "geom" }

/-- A concrete five-feature corridor payload with ids "a".."e". -/
def fivePayload : MapPayload :=
  { features := [letterFeature "a", letterFeature "b", letterFeature "c",
      letterFeature "d", letterFeature "e"]
    meta := "corridor" }

/-- A concrete active state whose focus node is the feature "d" (index 3). -/
def focusState : StateRecord :=
  { event_active := true, severity := 1, event_type := "accident"
    focus_node_id := some "d" }

/-- A concrete active accident state of severity 3. -/
def accident3State : StateRecord :=
  { event_active := true, severity := 3, event_type := "accident"
    focus_node_id := none }

/-!
Theorems.  General helper lemmas first, then one theorem per claim
(with witnesses and the counterexample where needed).
-/

theorem imin_eq (a b : ℤ) : imin a b = min a b := by
  unfold imin; split <;> omega

theorem imax_eq (a b : ℤ) : imax a b = max a b := by
  unfold imax; split <;> omega

theorem qmin_eq (a b : ℚ) : qmin a b = min a b := by
  simp [qmin, min_def]

theorem qmax_eq (a b : ℚ) : qmax a b = max a b := by
  unfold qmax
  split
  · exact (max_eq_left (by assumption)).symm
  · exact (max_eq_right (le_of_not_le (by assumption))).symm

theorem pyInt_nonneg_floor (q : ℚ) (h : 0 ≤ q) : pyInt q = ⌊q⌋ := by
  simp [pyInt, h]

theorem clamp_severity_bounds (v : Option ℤ) :
    1 ≤ clamp_severity v ∧ clamp_severity v ≤ 5 := by
  cases v with
  | none => simp [clamp_severity]
  | some n => simp only [clamp_severity, imax_eq, imin_eq]; omega

theorem clamp_severity_of_bounds (v : ℤ) (h1 : 1 ≤ v) (h5 : v ≤ 5) :
    clamp_severity (some v) = v := by
  simp only [clamp_severity, imax_eq, imin_eq]; omega

theorem clamp_severity_idem (v : Option ℤ) :
    clamp_severity (some (clamp_severity v)) = clamp_severity v := by
  obtain ⟨h1, h5⟩ := clamp_severity_bounds v
  exact clamp_severity_of_bounds _ h1 h5

theorem annotateLoop_length (cap : ℤ) (cv : ℚ) (idx : ℕ) (l : List Feature) :
    (annotateLoop cap cv idx l).length = l.length := by
  induction l generalizing idx with
  | nil => rfl
  | cons f rest ih => simp only [annotateLoop, List.length_cons, ih]

theorem annotateLoop_get? (cap : ℤ) (cv : ℚ) (l : List Feature) (idx i : ℕ) :
    (annotateLoop cap cv idx l).get? i =
      (l.get? i).map fun f =>
        if ((idx + i : ℕ) : ℤ) < cap then setCongestion f cv
        else setCongestion f 0.2 := by
  induction l generalizing idx i with
  | nil => simp [annotateLoop]
  | cons f rest ih =>
      cases i with
      | zero => simp [annotateLoop]
      | succ j =>
          simp only [annotateLoop, List.get?_cons_succ, ih (idx + 1) j, Option.map]
          have harith : idx + 1 + j = idx + (j + 1) := by omega
          rw [harith]

theorem annotateLoop_mem (cap : ℤ) (cv : ℚ) (idx : ℕ) (l : List Feature) :
    ∀ f ∈ annotateLoop cap cv idx l,
      f.congestion = some cv ∨ f.congestion = some 0.2 := by
  induction l generalizing idx with
  | nil => simp [annotateLoop]
  | cons g rest ih =>
      intro f hf
      simp only [annotateLoop, List.mem_cons] at hf
      rcases hf with hf | hf
      · subst hf
        split <;> simp [setCongestion]
      · exact ih (idx + 1) f hf

/-- C2: the invariant `eventActive == (eventType != "clear")` holds in the
initial state and after every event update (valid or not). -/
theorem C2_invariant_preserved :
    StateInvariant initialState ∧
      ∀ (s : StateRecord) (p : EventPayload), StateInvariant (toggle_event s p) := by
  constructor
  · simp [StateInvariant, initialState]
  · intro s p
    cases ht : p.type <;>
      simp [StateInvariant, toggle_event, ht, EventType.str]

/-- C3: a request with `type="clear"` deactivates the event and resets the
severity to 1, whatever severity the request carries. -/
theorem C3_clear_resets (s : StateRecord) (p : EventPayload)
    (h : p.type = EventType.clear) :
    (toggle_event s p).event_active = false ∧ (toggle_event s p).severity = 1 := by
  simp [toggle_event, h]

theorem C3_clear_resets_witness :
    (toggle_event initialState { type := EventType.clear, node_id := none, severity := some 4 }).event_active = false ∧
      (toggle_event initialState { type := EventType.clear, node_id := none, severity := some 4 }).severity = 1 :=
  C3_clear_resets initialState { type := EventType.clear, node_id := none, severity := some 4 } rfl

/-- C4: with the event inactive the KPI is delta 0, eta 340, queue 120,
independent of severity and event type. -/
theorem C4_inactive_kpi (s : StateRecord) (ha : s.event_active = false)
    (h1 : 1 ≤ s.severity) (h5 : s.severity ≤ 5) :
    build_kpi s = { eta_ems := 340, travel_time_delta := 0, queue_len_estimate := 120 } := by
  simp [build_kpi, ha, BASE_ETA]

theorem C4_inactive_kpi_witness :
    build_kpi initialState = { eta_ems := 340, travel_time_delta := 0, queue_len_estimate := 120 } :=
  C4_inactive_kpi initialState rfl (by decide) (by decide)

/-- C5: for an active ems event of severity 5 the KPI delta is
`int(340 * 0.4 * 0.4) = 54` and the ems ETA is 394. -/
theorem C5_ems5_kpi (s : StateRecord) (ha : s.event_active = true)
    (ht : s.event_type = "ems") (hs : s.severity = 5) :
    (build_kpi s).travel_time_delta = 54 ∧ (build_kpi s).eta_ems = 394 := by
  simp +decide only [build_kpi, ha, ht, hs, clamp_severity, imax, imin,
    TYPE_FACTOR, pyInt, BASE_ETA]
  norm_num

theorem C5_ems5_kpi_witness :
    (build_kpi { event_active := true, severity := 5, event_type := "ems", focus_node_id := none }).travel_time_delta = 54 ∧
      (build_kpi { event_active := true, severity := 5, event_type := "ems", focus_node_id := none }).eta_ems = 394 :=
  C5_ems5_kpi { event_active := true, severity := 5, event_type := "ems", focus_node_id := none } rfl rfl rfl

/-- C8: the event update is idempotent: repeating the same request leaves
the state where the first application put it. -/
theorem C8_idempotent (s : StateRecord) (p : EventPayload) :
    toggle_event (toggle_event s p) p = toggle_event s p := by
  by_cases hc : p.type = EventType.clear
  · simp [toggle_event, hc]
  · cases hs : p.severity with
    | some v => simp [toggle_event, hc, hs]
    | none => simp [toggle_event, hc, hs, clamp_severity_idem]

theorem annotateLoop_countP (cap : ℤ) (cv : ℚ) (hcv : cv ≠ 0.2)
    (l : List Feature) :
    ∀ idx : ℕ,
      (annotateLoop cap cv idx l).countP (fun f => decide (f.congestion = some cv)) =
        (imin cap ((idx : ℤ) + l.length) - imin cap (idx : ℤ)).toNat := by
  induction l with
  | nil => intro idx; simp [annotateLoop, imin_eq]
  | cons f rest ih =>
      intro idx
      simp only [annotateLoop, List.countP_cons, ih (idx + 1), List.length_cons]
      split
      · next hlt =>
          simp only [setCongestion, decide_eq_true_eq, Option.some.injEq,
            eq_self_iff_true, if_true, imin_eq]
          push_cast
          omega
      · next hge =>
          simp only [setCongestion, decide_eq_true_eq, Option.some.injEq]
          rw [if_neg fun h => hcv h.symm]
          simp only [imin_eq]
          push_cast
          omega

/-- C6: active accident of severity 3: exactly `min 2 featureCount`
features receive congestion 0.9 and every feature receives either 0.9
or 0.2. -/
theorem C6_accident3_hotspots (s : StateRecord) (payload : MapPayload)
    (ha : s.event_active = true) (hs : s.severity = 3) (ht : s.event_type = "accident") :
    ((get_segments s payload).features.countP
        (fun f => decide (f.congestion = some 0.9))) = min 2 payload.features.length ∧
      ∀ f ∈ (get_segments s payload).features,
        f.congestion = some 0.9 ∨ f.congestion = some 0.2 := by
  have htarget : imax 1 (imin 3 (1 + Int.fdiv (clamp_severity (some 3)) 2)) = 2 := by
    decide
  have hcap : hotspot_cap s payload.features.length = imin 2 payload.features.length := by
    simp only [hotspot_cap, hs, htarget]
  have hcv : congestion_value s = 0.9 := by
    simp +decide only [congestion_value, hs, ht, clamp_severity, imax, imin, qmin, qmax]
    norm_num
  unfold get_segments
  cases hfeat : payload.features with
  | nil => simp [hfeat]
  | cons f rest =>
      rw [hfeat] at hcap
      simp only [List.isEmpty_cons, ha, hcap, hcv, Bool.true_eq_false,
        Bool.false_eq_true, if_false]
      constructor
      · rw [annotateLoop_countP (imin 2 ((f :: rest).length : ℤ)) 0.9 (by norm_num) (f :: rest) 0]
        simp only [imin_eq, List.length_cons]
        push_cast
        omega
      · exact fun g hg => annotateLoop_mem _ _ _ _ g hg

theorem map_setCongestion_frame (l : List Feature) (v : ℚ) :
    List.Forall₂ (fun f g => g.fid = f.fid ∧ g.rest = f.rest) l
      (l.map fun f => setCongestion f v) := by
  induction l with
  | nil => simp
  | cons f rest ih => simp [setCongestion, ih]

theorem annotateLoop_frame (cap : ℤ) (cv : ℚ) (l : List Feature) :
    ∀ idx : ℕ,
      List.Forall₂ (fun f g => g.fid = f.fid ∧ g.rest = f.rest) l
        (annotateLoop cap cv idx l) := by
  induction l with
  | nil => intro idx; simp [annotateLoop]
  | cons f rest ih =>
      intro idx
      simp only [annotateLoop]
      refine List.Forall₂.cons ?_ (ih (idx + 1))
      split <;> simp [setCongestion]

/-- C7: the segment endpoint only writes the `congestion` property: the
payload is otherwise unchanged, and an empty feature list is returned
verbatim. -/
theorem C7_frame (s : StateRecord) (payload : MapPayload) :
    (get_segments s payload).meta = payload.meta ∧
      List.Forall₂ (fun f g => g.fid = f.fid ∧ g.rest = f.rest)
        payload.features (get_segments s payload).features ∧
      (payload.features = [] → get_segments s payload = payload) := by
  unfold get_segments
  cases hfeat : payload.features with
  | nil => simp [hfeat]
  | cons f rest =>
      cases ha : s.event_active with
      | false =>
          simp only [List.isEmpty_cons, Bool.false_eq_true, if_false, hfeat]
          exact ⟨by trivial, map_setCongestion_frame (f :: rest) 0.2, by simp⟩
      | true =>
          simp only [List.isEmpty_cons, Bool.true_eq_false, Bool.false_eq_true, if_false, hfeat]
          exact ⟨by trivial, annotateLoop_frame _ _ (f :: rest) 0, by simp⟩

theorem C7_frame_witness :
    get_segments focusState { features := [], meta := "corridor" } =
      { features := [], meta := "corridor" } :=
  (C7_frame focusState { features := [], meta := "corridor" }).2.2 rfl

/-- C1 (amended): with the event active, the hotspot window is the
contiguous block of `hotspot_cap` features starting at index 0 — the
focus node id plays no role — and every other feature gets congestion
0.2. -/
theorem C1_contiguous_window (s : StateRecord) (payload : MapPayload)
    (ha : s.event_active = true) :
    ∀ i : ℕ, i < payload.features.length →
      ((get_segments s payload).features.get? i).bind Feature.congestion =
        some (if (i : ℤ) < hotspot_cap s payload.features.length
          then congestion_value s else 0.2) := by
  intro i hi
  unfold get_segments
  cases hfeat : payload.features with
  | nil => rw [hfeat] at hi; simp at hi
  | cons f rest =>
      rw [hfeat] at hi
      simp only [List.isEmpty_cons, ha, Bool.true_eq_false, Bool.false_eq_true, if_false]
      rw [annotateLoop_get?]
      rw [List.get?_eq_get hi]
      simp only [Option.map_some, Option.some_bind, Nat.zero_add]
      split <;> simp [setCongestion]

theorem C1_contiguous_window_witness :
    ((get_segments focusState fivePayload).features.get? 0).bind Feature.congestion =
      some (if ((0 : ℕ) : ℤ) < hotspot_cap focusState fivePayload.features.length
        then congestion_value focusState else 0.2) :=
  C1_contiguous_window focusState fivePayload rfl 0 (by decide)

/-- C1 counterexample: for the active state focused on feature "d"
(focus index 3, hotspot cap 1) the code marks feature 0 as the sole
hotspot, while the spec's focus-centered window marks feature 3; the two
annotations differ. -/
theorem C1_counterexample :
    (get_segments focusState fivePayload).features.map Feature.congestion =
        [some 0.8, some 0.2, some 0.2, some 0.2, some 0.2] ∧
      specFocusIndex focusState fivePayload.features = 3 ∧
      hotspot_cap focusState fivePayload.features.length = 1 ∧
      (specAnnotateSegments focusState fivePayload).features.map Feature.congestion =
        [some 0.2, some 0.2, some 0.2, some 0.8, some 0.2] ∧
      get_segments focusState fivePayload ≠ specAnnotateSegments focusState fivePayload := by
  have h1 : (get_segments focusState fivePayload).features.map Feature.congestion =
      [some 0.8, some 0.2, some 0.2, some 0.2, some 0.2] := by
    simp +decide only [get_segments, fivePayload, focusState, letterFeature,
      annotateLoop, hotspot_cap, congestion_value, clamp_severity, imax, imin,
      qmin, qmax, setCongestion, List.isEmpty_cons, List.map]
    norm_num
  have h4 : (specAnnotateSegments focusState fivePayload).features.map Feature.congestion =
      [some 0.2, some 0.2, some 0.2, some 0.8, some 0.2] := by
    simp +decide only [specAnnotateSegments, specFocusIndex, specWindowStart,
      fivePayload, focusState, letterFeature, hotspot_cap, congestion_value,
      clamp_severity, imax, imin, qmin, qmax, setCongestion, List.isEmpty_cons,
      List.findIdx, List.findIdx.go, List.mapIdx, List.map]
    norm_num
  refine ⟨h1, by decide, by decide, h4, fun he => ?_⟩
  rw [he, h4] at h1
  simp only [List.cons.injEq, Option.some.injEq] at h1
  exact absurd h1.1 (by norm_num)

/-- C9: a POST /api/event body with an unknown event type or an
out-of-range severity is answered with 422 and the state is untouched
(the model's totality reflects that nothing crashes). -/
theorem C9_validation_rejects (s : StateRecord) (raw : RawEventBody)
    (h : parseEventType raw.type = none ∨
      ∃ v, raw.severity = some v ∧ (v < 1 ∨ 5 < v)) :
    post_event s raw = (422, s) := by
  unfold post_event parseEventPayload
  rcases h with ht | ⟨v, hv, hrange⟩
  · rw [ht]
  · cases hp : parseEventType raw.type with
    | none => rfl
    | some t =>
        rw [hv]
        have hnot : ¬(1 ≤ v ∧ v ≤ 5) := by omega
        simp [hnot]

theorem C9_validation_rejects_witness :
    post_event initialState { type := "flood", nodeId := none, severity := none } =
      (422, initialState) :=
  C9_validation_rejects initialState { type := "flood", nodeId := none, severity := none }
    (Or.inl (by decide))

theorem toggle_event_active_typed (s : StateRecord) (p : EventPayload)
    (hact : (toggle_event s p).event_active = true) :
    1 ≤ (toggle_event s p).severity ∧ (toggle_event s p).severity ≤ 5 ∧
      ((toggle_event s p).event_type = "accident" ∨
        (toggle_event s p).event_type = "closure" ∨
        (toggle_event s p).event_type = "construction" ∨
        (toggle_event s p).event_type = "ems") := by
  by_cases hc : p.type = EventType.clear
  · exfalso
    simp [toggle_event, hc] at hact
  · have hb := clamp_severity_bounds
      (match p.severity with | some v => some v | none => some s.severity)
    have hdec : decide (p.type ≠ EventType.clear) = true := by
      simp [hc]
    simp only [toggle_event, hdec, if_true]
    refine ⟨hb.1, hb.2, ?_⟩
    cases hpt : p.type <;> simp [EventType.str] <;> exact hc hpt

theorem build_kpi_queue (s : StateRecord) :
    (build_kpi s).queue_len_estimate =
      if (build_kpi s).travel_time_delta = 0 then 120 else 300 := rfl

theorem reachable_active_typed (s : StateRecord) (h : Reachable s) :
    s.event_active = true →
      1 ≤ s.severity ∧ s.severity ≤ 5 ∧
        (s.event_type = "accident" ∨ s.event_type = "closure" ∨
          s.event_type = "construction" ∨ s.event_type = "ems") := by
  induction h with
  | init => intro hact; simp [initialState] at hact
  | step s p _ _ _ => exact toggle_event_active_typed s p

theorem build_kpi_delta_lower (s : StateRecord) (ha : s.event_active = true)
    (h1 : 1 ≤ s.severity) (h5 : s.severity ≤ 5)
    (ht : s.event_type = "accident" ∨ s.event_type = "closure" ∨
      s.event_type = "construction" ∨ s.event_type = "ems") :
    27 ≤ (build_kpi s).travel_time_delta := by
  obtain ⟨ea, sev, et, fnid⟩ := s
  simp only at ha h1 h5 ht
  subst ha
  rcases ht with ht | ht | ht | ht <;> subst ht <;>
    interval_cases sev <;>
      (simp +decide only [build_kpi, clamp_severity, imax, imin, TYPE_FACTOR,
        pyInt, BASE_ETA]; norm_num)

/-- C10: in every reachable state, an active event yields a KPI delta of
at least 27 and a queue estimate of 300; an inactive state yields 120. -/
theorem C10_reachable_kpi (s : StateRecord) (h : Reachable s) :
    (s.event_active = true →
      27 ≤ (build_kpi s).travel_time_delta ∧
        (build_kpi s).queue_len_estimate = 300) ∧
    (s.event_active = false → (build_kpi s).queue_len_estimate = 120) := by
  constructor
  · intro ha
    obtain ⟨h1, h5, ht⟩ := reachable_active_typed s h ha
    have hd := build_kpi_delta_lower s ha h1 h5 ht
    refine ⟨hd, ?_⟩
    have hne : (build_kpi s).travel_time_delta ≠ 0 := by omega
    rw [build_kpi_queue s, if_neg hne]
  · intro ha
    simp [build_kpi, ha]

theorem C10_reachable_kpi_witness :
    27 ≤ (build_kpi (toggle_event initialState
        { type := EventType.ems, node_id := none, severity := some 5 })).travel_time_delta ∧
      (build_kpi (toggle_event initialState
        { type := EventType.ems, node_id := none, severity := some 5 })).queue_len_estimate = 300 :=
  (C10_reachable_kpi _
    (Reachable.step initialState { type := EventType.ems, node_id := none, severity := some 5 }
      Reachable.init
      (fun v hv => by
        have h5 : (5 : ℤ) = v := Option.some.inj hv
        omega))).1 rfl

theorem C6_accident3_hotspots_witness :
    ((get_segments accident3State fivePayload).features.countP
        (fun f => decide (f.congestion = some 0.9))) =
      min 2 fivePayload.features.length :=
  (C6_accident3_hotspots accident3State fivePayload rfl rfl rfl).1
